import Mathlib

/-!
Verification development for the adaptive medical-intake assessment engine
(`backend/app/ai_service.py` and `backend/app/routers/chat.py`).

The Python code is shallowly embedded: pure helper functions become Lean
functions over `String` / `List`, the external generation provider is an
explicit `Option String` input (`none` models an unavailable provider or a
raised exception), and the HTTP endpoints become functions returning
`Except String` (the `error` case models a raised `HTTPException` with its
`detail` string).  Python `dict`s whose key sets are dynamic are modelled as
association lists (`List (String × String)`) with Python-dict assignment
semantics (`dictInsert`).
-/

/-- ASCII lower-casing of one character; the vocabularies matched by the
engine are all ASCII, so this coincides with Python `str.lower()` on the
relevant alphabet. -/
def asciiLower (c : Char) : Char :=
  if 'A' ≤ c ∧ c ≤ 'Z' then Char.ofNat (c.toNat + 32) else c

/-- Python `s.lower()` (restricted to ASCII case mapping). -/
def pyLower (s : String) : String :=
  String.mk (s.toList.map asciiLower)

/-- Python substring test `pat in hay`, on character lists. -/
def listContains (hay pat : List Char) : Bool :=
  match hay with
  | [] => pat.isEmpty
  | _ :: t => pat.isPrefixOf hay || listContains t pat

/-- Python substring test `pat in hay` on strings. -/
def strContains (hay pat : String) : Bool :=
  listContains hay.toList pat.toList

/-- The whitespace characters removed by Python `str.strip()`. -/
def isPyWhitespace (c : Char) : Bool :=
  c = ' ' || c = '\t' || c = '\n' || c = '\r' || c = '\x0b' || c = '\x0c'

/-- Python `str.strip()` (leading and trailing whitespace removed). -/
def pyStrip (s : String) : String :=
  String.mk (((s.toList.dropWhile isPyWhitespace).reverse.dropWhile isPyWhitespace).reverse)

/-- Auxiliary for `splitLines`: split a character list at newlines, carrying
the (reversed) characters of the current segment. -/
def splitLinesAux : List Char → List Char → List String
  | [], acc => [String.mk acc.reverse]
  | c :: rest, acc =>
    if c = '\n' then String.mk acc.reverse :: splitLinesAux rest []
    else splitLinesAux rest (c :: acc)

/-- Python `text.split('\n')`. -/
def splitLines (s : String) : List String := splitLinesAux s.toList []

/-- Python `'\n'.join(lines)`. -/
def joinLines : List String → String
  | [] => ""
  | [x] => x
  | x :: rest => x ++ "\n" ++ joinLines rest

/-- One stored chat message (`chat_messages` row): its text and the
`is_doctor` role flag (`false` = patient / inbound, `true` = attendant). -/
structure Msg where
  message : String
  is_doctor : Bool
deriving DecidableEq, Repr

/-- User-profile context passed around by the router; the scoring engine
receives but never reads it. -/
abbrev UserContext := List (String × String)

/-- Python dict assignment `m[k] = v`: replace the value if the key is
present (keeping its position), otherwise append the new pair. -/
def dictInsert (m : List (String × String)) (k v : String) :
    List (String × String) :=
  if m.any (fun p => p.1 == k) then
    m.map (fun p => if p.1 == k then (k, v) else p)
  else m ++ [(k, v)]

/-- Lookup in an association-list dict (`m.get(k)` / `m[k]`). -/
def lookupAssoc (m : List (String × String)) (k : String) : Option String :=
  (m.find? (fun p => p.1 == k)).map (fun p => p.2)

/-! ## Structured Data Extractor (`_extract_structured_data_from_ai`) -/

def symptom_keywords : List String :=
  ["pain", "headache", "migraine", "dizziness", "vertigo", "numbness", "tingling",
   "weakness", "tremor", "seizure", "memory", "concentration", "fatigue", "nausea",
   "vision", "hearing", "balance", "coordination", "speech", "swallowing",
   "mood", "anxiety", "depression", "insomnia", "appetite", "weight"]

def severity_indicators : List String :=
  ["mild", "moderate", "severe", "intense", "debilitating"]

def duration_patterns : List String :=
  ["days", "weeks", "months", "years", "chronic", "acute", "recent"]

def location_patterns : List String :=
  ["head", "neck", "back", "arms", "legs", "left", "right", "bilateral"]

def trigger_patterns : List String :=
  ["stress", "exercise", "food", "weather", "position", "movement"]

def frequency_patterns : List String :=
  ["daily", "weekly", "monthly", "occasional", "constant", "intermittent"]

def impact_patterns : List String :=
  ["daily life", "work", "relationships", "sleep", "exercise", "social"]

/-- The output record of the extractor (the `data` dict of
`_extract_structured_data_from_ai`, with all of its keys). -/
structure ExtractedData where
  symptoms : List String
  severity_levels : List (String × String)
  duration : String
  location : String
  triggers : List String
  frequency : String
  medical_history : List String
  medications : List String
  allergies : List String
  surgeries : List String
  family_history : List String
  risk_factors : List String
  lifestyle_factors : List String
  occupational_factors : List String
  environmental_factors : List String
  hearing_concerns : List String
  impact_assessment : String
  treatment_history : List String
  previous_consultations : List String
deriving DecidableEq, Repr

/-- `_extract_structured_data_from_ai`: keyword/substring extraction over the
lower-cased text.  Each Python `for`-loop over a fixed vocabulary becomes a
`filter` (append-if-present) or `foldl` (overwrite-if-present) over the same
list, in the same order. -/
def extract_structured_data_from_ai (ai_content : String) : ExtractedData :=
  let content_lower := pyLower ai_content
  let symptoms := symptom_keywords.filter (fun k => strContains content_lower k)
  let severity_levels :=
    severity_indicators.foldl (fun m indicator =>
      if strContains content_lower indicator then
        symptoms.foldl (fun m symptom =>
          if strContains content_lower symptom then dictInsert m symptom indicator
          else m) m
      else m) []
  let duration :=
    duration_patterns.foldl (fun d pattern =>
      if strContains content_lower pattern then pattern else d) ""
  let location :=
    location_patterns.foldl (fun d pattern =>
      if strContains content_lower pattern then pattern else d) ""
  let triggers := trigger_patterns.filter (fun p => strContains content_lower p)
  let frequency :=
    frequency_patterns.foldl (fun d pattern =>
      if strContains content_lower pattern then pattern else d) ""
  let medications :=
    if strContains content_lower "medication" || strContains content_lower "pill" then
      ["medications mentioned"] else []
  let allergies :=
    if strContains content_lower "allergy" then ["allergies mentioned"] else []
  let surgeries :=
    if strContains content_lower "surgery" || strContains content_lower "operation" then
      ["surgical history mentioned"] else []
  let family_history :=
    if strContains content_lower "family" then ["family history mentioned"] else []
  let lifestyle_factors :=
    if strContains content_lower "smoking" || strContains content_lower "alcohol" then
      ["substance use mentioned"] else []
  let occupational_factors :=
    if strContains content_lower "work" || strContains content_lower "job" then
      ["occupational factors mentioned"] else []
  let environmental_factors :=
    if strContains content_lower "environment" || strContains content_lower "exposure" then
      ["environmental factors mentioned"] else []
  let impact_assessment :=
    if impact_patterns.any (fun p => strContains content_lower p) then
      "impact on daily activities mentioned" else ""
  let treatment_history :=
    if strContains content_lower "treatment" || strContains content_lower "therapy" then
      ["previous treatments mentioned"] else []
  let previous_consultations :=
    if strContains content_lower "doctor" || strContains content_lower "consultation" then
      ["previous medical consultations mentioned"] else []
  { symptoms := symptoms
    severity_levels := severity_levels
    duration := duration
    location := location
    triggers := triggers
    frequency := frequency
    medical_history := []
    medications := medications
    allergies := allergies
    surgeries := surgeries
    family_history := family_history
    risk_factors := []
    lifestyle_factors := lifestyle_factors
    occupational_factors := occupational_factors
    environmental_factors := environmental_factors
    hearing_concerns := []
    impact_assessment := impact_assessment
    treatment_history := treatment_history
    previous_consultations := previous_consultations }

/-! ## Completion Scoring Engine (`_calculate_completion_score`) -/

/-- Base score from conversation length (the first `if/elif` chain of
`_calculate_completion_score`). -/
def base_score_of (history : List Msg) : Nat :=
  if history.length ≥ 10 then 30
  else if history.length ≥ 6 then 20
  else if history.length ≥ 3 then 10
  else 0

/-- Symptom-coverage points (up to 20). -/
def symptom_points (analysis_text : String) : Nat :=
  if strContains analysis_text "symptom" then
    if strContains analysis_text "detailed" || strContains analysis_text "thorough" then 20
    else if strContains analysis_text "basic" || strContains analysis_text "main" then 15
    else 10
  else 0

/-- Content-coverage score: the incremental `content_score += ...` additions
of the source written as one sum of the same addends, capped at 70. -/
def content_score_of (analysis_text : String) : Nat :=
  min (symptom_points analysis_text
    + (if strContains analysis_text "medical history" || strContains analysis_text "medication" then 15 else 0)
    + (if strContains analysis_text "risk factor" || strContains analysis_text "lifestyle" then 15 else 0)
    + (if strContains analysis_text "impact" || strContains analysis_text "daily life" then 10 else 0)
    + (if strContains analysis_text "family" then 5 else 0)
    + (if strContains analysis_text "hearing" || strContains analysis_text "auditory" then 5 else 0)) 70

/-- `_calculate_completion_score(analysis_text, history, user_context)`;
`user_context` appears in the signature but is never read. -/
def calculate_completion_score (analysis_text : String) (history : List Msg)
    (_user_context : UserContext) : Nat :=
  max 0 (min 100 (base_score_of history + content_score_of analysis_text))

/-- `_determine_assessment_completion_looser`: complete iff the score is at
least 75 (the `analysis_text` and `history` parameters are never read). -/
def determine_assessment_completion_looser (completion_score : Nat)
    (_analysis_text : String) (_history : List Msg) : Bool :=
  decide (completion_score ≥ 75)

/-- `_determine_assessment_stage_improved` (only the score is read). -/
def determine_assessment_stage_improved (completion_score : Nat)
    (_analysis_text : String) (_history : List Msg) : String :=
  if completion_score ≥ 85 then "complete"
  else if completion_score ≥ 75 then "ready_for_summary"
  else if completion_score ≥ 50 then "gathering"
  else "initial"

/-! ## Next-Question Advisor (`_suggest_next_questions`) -/

/-- The generic closing question appended when fewer than two tier-specific
questions apply. -/
def generic_followup_question : String :=
  "Is there anything else you\x27d like me to know about your health concerns?"

/-- The tier-specific questions gathered by the three score-band branches of
`_suggest_next_questions`, before the generic fallback and the `[:3]` cap. -/
def tier_questions (completion_score : Nat) (analysis_text : String) : List String :=
  if completion_score < 50 then
    (if !strContains analysis_text "symptom" then
      ["Can you describe your main symptoms in detail?"] else [])
    ++ (if !strContains analysis_text "medical history" then
      ["Do you have any existing medical conditions or take medications?"] else [])
    ++ (if !strContains analysis_text "duration" then
      ["How long have you been experiencing these symptoms?"] else [])
  else if completion_score < 75 then
    (if !strContains analysis_text "severity" then
      ["How severe are these symptoms on a scale of 1-10?"] else [])
    ++ (if !strContains analysis_text "trigger" then
      ["What seems to trigger or worsen these symptoms?"] else [])
    ++ (if !strContains analysis_text "impact" then
      ["How do these symptoms affect your daily life and activities?"] else [])
    ++ (if !strContains analysis_text "family" then
      ["Is there any family history of similar neurological conditions?"] else [])
  else
    (if !strContains analysis_text "treatment" then
      ["Have you tried any treatments or medications for these symptoms?"] else [])
    ++ (if !strContains analysis_text "hearing" then
      ["Do you have any concerns about your hearing or balance?"] else [])
    ++ (if !strContains analysis_text "follow-up" then
      ["What would you like to achieve from this assessment?"] else [])

/-- `_suggest_next_questions`: the tier questions, a general follow-up when
fewer than two were gathered, then `questions[:3]`. -/
def suggest_next_questions (completion_score : Nat) (analysis_text : String) :
    List String :=
  (if (tier_questions completion_score analysis_text).length < 2 then
    tier_questions completion_score analysis_text ++ [generic_followup_question]
  else tier_questions completion_score analysis_text).take 3

/-- `_identify_missing_areas_ai`. -/
def identify_missing_areas_ai (analysis_text : String) : List String :=
  let missing :=
    (if !strContains analysis_text "symptom"
        || (strContains analysis_text "symptom" && strContains analysis_text "incomplete") then
      ["symptoms"] else [])
    ++ (if !strContains analysis_text "medical history"
        || (strContains analysis_text "medical history" && strContains analysis_text "incomplete") then
      ["medical_history"] else [])
    ++ (if !strContains analysis_text "risk factor"
        || (strContains analysis_text "risk factor" && strContains analysis_text "incomplete") then
      ["risk_factors"] else [])
    ++ (if !strContains analysis_text "hearing" then ["hearing_assessment"] else [])
    ++ (if !strContains analysis_text "impact" || !strContains analysis_text "daily life" then
      ["impact_assessment"] else [])
    ++ (if !strContains analysis_text "family" then ["family_history"] else [])
    ++ (if !strContains analysis_text "treatment" then ["treatment_history"] else [])
  if missing = [] then
    ["symptoms", "medical_history", "risk_factors", "family_history", "treatment_history"]
  else missing

/-! ## Turn Orchestrator (`_analyze_conversation_progress_ai`,
`generate_structured_response`, `_create_fallback_response`) -/

/-- The analysis record built by `_analyze_conversation_progress_ai`. -/
structure ProgressAnalysis where
  current_stage : String
  completion_score : Nat
  assessment_complete : Bool
  missing_areas : List String
  conversation_quality : String
  next_questions : List String
deriving DecidableEq, Repr

/-- `_analyze_conversation_progress_ai` for an enabled service: the analysis
provider call is an explicit `Option String` input (`none` models the call
raising, which the own `except` of the function turns into the fixed default
record).  On success the provider text is lower-cased and fed to the scoring,
completion, stage, missing-area and question heuristics. -/
def analyze_conversation_progress_ai (providerAnalysis : Option String)
    (history : List Msg) (current_stage : String) (user_context : UserContext) :
    ProgressAnalysis :=
  match providerAnalysis with
  | some content =>
    let analysis_text := pyLower content
    let completion_score := calculate_completion_score analysis_text history user_context
    let assessment_complete :=
      determine_assessment_completion_looser completion_score analysis_text history
    let stage := determine_assessment_stage_improved completion_score analysis_text history
    { current_stage := stage
      completion_score := completion_score
      assessment_complete := assessment_complete
      missing_areas := identify_missing_areas_ai analysis_text
      conversation_quality :=
        if completion_score > 80 then "excellent"
        else if completion_score > 50 then "good"
        else "developing"
      next_questions := suggest_next_questions completion_score analysis_text }
  | none =>
    { current_stage := current_stage
      completion_score := 0
      assessment_complete := false
      missing_areas := ["symptoms", "medical_history", "risk_factors"]
      conversation_quality := "developing"
      next_questions := ["Please describe your main symptoms",
                         "How long have you been experiencing these symptoms?"] }

/-- The structured turn result returned by `generate_structured_response`
(`collected_data := none` models the literal empty dict `{}` of the fallback
response). -/
structure TurnResult where
  message : String
  assessment_complete : Bool
  completion_score : Nat
  collected_data : Option ExtractedData
  assessment_stage : String
  next_questions : List String
  conversation_quality : String
deriving DecidableEq, Repr

/-- `_create_fallback_response`. -/
def create_fallback_response (message : String) (stage : String) : TurnResult :=
  { message := message
    assessment_complete := false
    completion_score := 0
    collected_data := none
    assessment_stage := stage
    next_questions := ["Please describe your main symptoms",
                       "How long have you been experiencing these symptoms?"]
    conversation_quality := "limited" }

/-- `_create_structured_response_from_ai`. -/
def create_structured_response_from_ai (ai_content : String)
    (progress_analysis : ProgressAnalysis) : TurnResult :=
  { message := ai_content
    assessment_complete := progress_analysis.assessment_complete
    completion_score := progress_analysis.completion_score
    collected_data := some (extract_structured_data_from_ai ai_content)
    assessment_stage := progress_analysis.current_stage
    next_questions := []
    conversation_quality := progress_analysis.conversation_quality }

/-- `generate_structured_response`: the two outbound provider calls (progress
analysis, then the conversational reply) are explicit `Option String` inputs;
`none` for the reply models the call raising, which the outer `except` turns
into the fallback response.  Session-memory mutation is not modelled (no
claim concerns it). -/
def generate_structured_response (enabled : Bool)
    (providerAnalysis providerReply : Option String)
    (_message : String) (conversation_history : List Msg)
    (assessment_stage : String) (user_context : UserContext) : TurnResult :=
  if !enabled then create_fallback_response "AI service unavailable" assessment_stage
  else
    let progress_analysis :=
      analyze_conversation_progress_ai providerAnalysis conversation_history
        assessment_stage user_context
    match providerReply with
    | none =>
      create_fallback_response
        "I\x27m having trouble processing your request. Please try again." assessment_stage
    | some ai_content => create_structured_response_from_ai ai_content progress_analysis

/-! ## Report Synthesizer (`_parse_report_into_sections`,
`generate_patient_report`) -/

/-- The six-section dict built by `_parse_report_into_sections`; the record
fields are exactly its six keys, so every output always carries precisely
these six string-valued entries (none missing, none null). -/
structure ReportSections where
  executive_summary : String
  symptom_analysis : String
  risk_assessment : String
  hearing_assessment_summary : String
  recommendations : String
  follow_up_actions : String
deriving DecidableEq, Repr

/-- `sections[key] = value` for the six fixed keys. -/
def setSection (s : ReportSections) (key value : String) : ReportSections :=
  if key = "executive_summary" then { s with executive_summary := value }
  else if key = "symptom_analysis" then { s with symptom_analysis := value }
  else if key = "risk_assessment" then { s with risk_assessment := value }
  else if key = "hearing_assessment_summary" then { s with hearing_assessment_summary := value }
  else if key = "recommendations" then { s with recommendations := value }
  else if key = "follow_up_actions" then { s with follow_up_actions := value }
  else s

/-- `any(sections.values())`: some section holds a non-empty string. -/
def anySectionNonempty (s : ReportSections) : Bool :=
  s.executive_summary ≠ "" || s.symptom_analysis ≠ "" || s.risk_assessment ≠ ""
    || s.hearing_assessment_summary ≠ "" || s.recommendations ≠ ""
    || s.follow_up_actions ≠ ""

/-- The heading-marker keyword groups of `_parse_report_into_sections`, in
the order the `elif` chain tries them, paired with the section key each
selects. -/
def sectionMarkerGroups : List (List String × String) :=
  [(["executive summary", "1.", "1)"], "executive_summary"),
   (["symptom analysis", "2.", "2)"], "symptom_analysis"),
   (["risk assessment", "3.", "3)"], "risk_assessment"),
   (["hearing assessment", "4.", "4)"], "hearing_assessment_summary"),
   (["recommendations", "5.", "5)"], "recommendations"),
   (["follow-up actions", "follow up actions", "6.", "6)"], "follow_up_actions")]

/-- `any(keyword in line.lower() for keyword in kws)`. -/
def lineMatchesGroup (line : String) (kws : List String) : Bool :=
  kws.any (fun k => strContains (pyLower line) k)

/-- The first marker group (in `elif` order) whose keywords match the line. -/
def matchingSectionKey (line : String) : Option String :=
  (sectionMarkerGroups.find? (fun g => lineMatchesGroup line g.1)).map (fun g => g.2)

/-- Flush the accumulated lines into the current section
(`sections[current_section] = '\n'.join(current_content).strip()`,
executed only when both a current section and content exist). -/
def flushSection (sections : ReportSections) (cur : Option String)
    (content : List String) : ReportSections :=
  match cur with
  | some c =>
    if content ≠ [] then setSection sections c (pyStrip (joinLines content))
    else sections
  | none => sections

/-- The body of the `for line in lines` loop of `_parse_report_into_sections`:
strip the line; on a heading marker flush and switch section; otherwise append
a non-empty line to the content of the current section. -/
def parseReportStep (st : ReportSections × Option String × List String)
    (rawLine : String) : ReportSections × Option String × List String :=
  let line := pyStrip rawLine
  match matchingSectionKey line with
  | some key => (flushSection st.1 st.2.1 st.2.2, some key, [])
  | none =>
    if line ≠ "" ∧ st.2.1.isSome then (st.1, st.2.1, st.2.2 ++ [line])
    else st

/-- `_parse_report_into_sections`: split on newlines, run the line loop,
flush the trailing section, and if every section is still empty assign the
whole original text to the executive summary. -/
def parse_report_into_sections (report_text : String) : ReportSections :=
  let init : ReportSections := ⟨"", "", "", "", "", ""⟩
  let final := (splitLines report_text).foldl parseReportStep (init, none, [])
  let sections := flushSection final.1 final.2.1 final.2.2
  if !anySectionNonempty sections then { sections with executive_summary := report_text }
  else sections

/-- The result of `generate_patient_report` in the non-error case (the echoed
input snapshots are not modelled; no claim reads them). -/
structure GeneratedReport where
  report : String
deriving DecidableEq, Repr

/-- `generate_patient_report`: the provider call producing the report prose
is an `Option String` input; `none` models the call raising, which the
`except` turns into the explicit error dict `{"error": "Failed to generate
report"}`, and a disabled service yields `{"error": "AI service
unavailable"}`. -/
def generate_patient_report (enabled : Bool) (providerReport : Option String) :
    Except String GeneratedReport :=
  if !enabled then .error "AI service unavailable"
  else
    match providerReport with
    | none => .error "Failed to generate report"
    | some content => .ok { report := content }

/-! ## Chat router (`routers/chat.py`): `send_message`,
`complete_assessment_manually`, `generate_final_report` -/

/-- ASCII upper-casing of one character (Python `str.upper()` on the ASCII
alphabet). -/
def asciiUpper (c : Char) : Char :=
  if 'a' ≤ c ∧ c ≤ 'z' then Char.ofNat (c.toNat - 32) else c

/-- Python `s.upper()` (ASCII fragment). -/
def pyUpper (s : String) : String :=
  String.mk (s.toList.map asciiUpper)

/-- Python `s.replace("-", "")`. -/
def removeDashes (s : String) : String :=
  String.mk (s.toList.filter (fun c => c ≠ '-'))

/-- Python `s.startswith(pre)`. -/
def strStartsWith (s pre : String) : Bool :=
  pre.toList.isPrefixOf s.toList

/-- Python `s.splitlines()` for texts whose only line boundary is `'\n'`:
like `split('\n')` but without a trailing empty segment and with
`"".splitlines() == []`. -/
def pySplitlines (s : String) : List String :=
  if s = "" then []
  else if s.toList.getLast? = some '\n' then (splitLines s).dropLast
  else splitLines s

/-- The HTTP response model `ChatResponse` (identifier and timestamp fields
are not modelled). -/
structure ChatResponse where
  message : String
  response : String
  assessment_complete : Bool
  completion_score : Nat
  message_count : Nat
deriving DecidableEq, Repr

/-- Everything `send_message` returns and writes: the HTTP response, the two
persisted messages, the `is_complete` flag `_update_patient_report` stores on
the patient report, and the pair `update_chat_session_progress` stores on the
session. -/
structure SendOutcome where
  response : ChatResponse
  saved_messages : List Msg
  report_is_complete : Bool
  session_score : Nat
  session_complete : Bool
deriving DecidableEq, Repr

/-- The `detail` string of the 400 raised when the message ceiling is hit. -/
def chat_limit_detail : String :=
  "Chat session limit reached (10 messages). Please generate your report or start a new session."

/-- `send_message` (the path where no canned `response` is supplied): reject
when the stored history already holds 10 or more messages (before any write),
otherwise generate the structured turn, persist the user and attendant
messages, recount, and surface `assessment_complete = (count >= 10)` together
with the completion score of the turn. -/
def send_message (history : List Msg) (enabled : Bool)
    (providerAnalysis providerReply : Option String)
    (userMessage : String) (assessment_stage : String)
    (user_context : UserContext) : Except String SendOutcome :=
  if history.length ≥ 10 then .error chat_limit_detail
  else
    let ai_response :=
      generate_structured_response enabled providerAnalysis providerReply
        userMessage history assessment_stage user_context
    let user_msg : Msg := { message := userMessage, is_doctor := false }
    let ai_msg : Msg := { message := ai_response.message, is_doctor := true }
    let updated_history := history ++ [user_msg, ai_msg]
    let current_message_count := updated_history.length
    let assessment_complete := decide (current_message_count ≥ 10)
    .ok
      { response :=
          { message := userMessage
            response := ai_response.message
            assessment_complete := assessment_complete
            completion_score := ai_response.completion_score
            message_count := current_message_count }
        saved_messages := [user_msg, ai_msg]
        report_is_complete := ai_response.assessment_complete
        session_score := ai_response.completion_score
        session_complete := assessment_complete }

/-- Result body of `complete_assessment_manually`. -/
structure ManualCompletionResult where
  message : String
  completion_score : Nat
  message_count : Nat
deriving DecidableEq, Repr

/-- The `detail` string of the 400 raised by manual completion below 4
messages. -/
def manual_needs_more_detail (message_count : Nat) : String :=
  "Assessment needs more conversation for completion. Current messages: "
    ++ toString message_count ++ "/10. Please continue the assessment."

/-- `complete_assessment_manually`: 404 without a report, 400 below 4
messages, otherwise record `completion_score = max(message_count * 10, 80)`
and mark the assessment complete. -/
def complete_assessment_manually (reportExists : Bool) (history : List Msg) :
    Except String ManualCompletionResult :=
  if !reportExists then .error "No assessment session found for this session ID."
  else
    let message_count := history.length
    if message_count < 4 then .error (manual_needs_more_detail message_count)
    else
      .ok
        { message := "Assessment completed successfully"
          completion_score := max (message_count * 10) 80
          message_count := message_count }

/-- The section titles listed inline in `generate_final_report`. -/
def final_report_section_titles : List String :=
  ["EXECUTIVE SUMMARY", "SYMPTOM ANALYSIS", "RISK ASSESSMENT",
   "HEARING ASSESSMENT SUMMARY", "RECOMMENDATIONS", "FOLLOW-UP ACTIONS"]

/-- The dict key the inline extractor derives from a matched title:
`title.lower().replace("-", "_")` (note: spaces are left as spaces). -/
def inlineSectionKey (title : String) : String :=
  String.mk ((pyLower title).toList.map (fun c => if c = '-' then '_' else c))

/-- One iteration of the inline `for line in lines` loop of
`generate_final_report`: compare the stripped, upper-cased, dash-free line
against each dash-free title; on a match open that section, otherwise append
the raw line to the currently open section. -/
def inlineSectionStep (st : List (String × String) × Option String)
    (line : String) : List (String × String) × Option String :=
  let line_stripped := removeDashes (pyUpper (pyStrip line))
  match final_report_section_titles.find?
      (fun title => strStartsWith line_stripped (removeDashes title)) with
  | some title => (dictInsert st.1 (inlineSectionKey title) "", some (inlineSectionKey title))
  | none =>
    match st.2 with
    | some cur =>
      let existing := (lookupAssoc st.1 cur).getD ""
      let value := if existing ≠ "" then existing ++ "\n" ++ line else existing ++ line
      (dictInsert st.1 cur value, some cur)
    | none => st

/-- The inline section extraction of `generate_final_report` over the
report text of the provider. -/
def extractInlineSections (ai_content : String) : List (String × String) :=
  ((pySplitlines ai_content).foldl inlineSectionStep ([], none)).1

/-- The patient-report row `generate_final_report` writes (`none` = the key
is absent from the `report_data` dict; identifier, title and timestamp fields
are not modelled). -/
structure ReportData where
  executive_summary : Option String
  symptom_analysis : Option String
  risk_assessment : Option String
  hearing_assessment_summary : Option String
  recommendations : Option String
  follow_up_actions : Option String
  assessment_stage : String
  is_complete : Bool
deriving DecidableEq, Repr

/-- Default texts used by `generate_final_report` when a section key is
missing (`sections.get(key, default)`), with the message count interpolated. -/
def default_exec_summary (message_count : Nat) : String :=
  "Based on " ++ toString message_count
    ++ " message exchanges, this assessment provides a comprehensive evaluation of the patient\x27s neurological symptoms and concerns."

def default_symptom_analysis (message_count : Nat) : String :=
  "Analysis based on conversation covering " ++ toString message_count
    ++ " exchanges. Key symptoms and concerns have been identified and documented."

def default_risk_assessment : String :=
  "Risk factors have been evaluated based on the conversation history and patient responses."

def default_hearing_summary : String :=
  "Hearing assessment results have been analyzed and documented."

def default_recommendations : String :=
  "Recommendations are provided based on the comprehensive assessment conducted."

def default_follow_up : String :=
  "Follow-up actions and next steps are outlined based on the assessment findings."

/-- `generate_final_report`: 404 without an existing report row, 400 below 6
messages; then the AI report is requested, and *both* on provider failure and
on success a report marked `is_complete = True` is written — on failure the
`report_data` dict simply omits the `hearing_assessment_summary` key and uses
the generic texts. -/
def generate_final_report (reportExists : Bool) (history : List Msg)
    (enabled : Bool) (providerReport : Option String) :
    Except String ReportData :=
  if !reportExists then
    .error "No assessment session found for this session ID. Please ensure you have completed at least one message exchange in the chat session."
  else
    let message_count := history.length
    if message_count < 6 then
      .error ("Assessment needs more conversation for report generation. Current messages: "
        ++ toString message_count ++ "/10. Please continue the assessment.")
    else
      match generate_patient_report enabled providerReport with
      | .error _ =>
        .ok
          { executive_summary := some (default_exec_summary message_count)
            symptom_analysis := some (default_symptom_analysis message_count)
            risk_assessment := some default_risk_assessment
            hearing_assessment_summary := none
            recommendations := some default_recommendations
            follow_up_actions := some default_follow_up
            assessment_stage := "complete"
            is_complete := true }
      | .ok ai_report =>
        let sections := extractInlineSections ai_report.report
        .ok
          { executive_summary :=
              some ((lookupAssoc sections "executive_summary").getD (default_exec_summary message_count))
            symptom_analysis :=
              some ((lookupAssoc sections "symptom_analysis").getD (default_symptom_analysis message_count))
            risk_assessment :=
              some ((lookupAssoc sections "risk_assessment").getD default_risk_assessment)
            hearing_assessment_summary :=
              some ((lookupAssoc sections "hearing_assessment_summary").getD default_hearing_summary)
            recommendations :=
              some ((lookupAssoc sections "recommendations").getD default_recommendations)
            follow_up_actions :=
              some ((lookupAssoc sections "follow_up_actions").getD default_follow_up)
            assessment_stage := "complete"
            is_complete := true }

/-! ## Concrete session histories used by witnesses and counterexamples -/

def h4ex : List Msg := List.replicate 4 ⟨"hi", false⟩

def h6ex : List Msg := List.replicate 6 ⟨"hi", false⟩

def h9ex : List Msg := List.replicate 9 ⟨"hi", false⟩

/-- A ten-message history holding only five patient (inbound) turns: the
greeting-plus-alternation shape actually produced by the router. -/
def h10ex : List Msg :=
  [⟨"p1", false⟩, ⟨"d1", true⟩, ⟨"p2", false⟩, ⟨"d2", true⟩, ⟨"p3", false⟩,
   ⟨"d3", true⟩, ⟨"p4", false⟩, ⟨"d4", true⟩, ⟨"p5", false⟩, ⟨"d5", true⟩]

def h11ex : List Msg := List.replicate 11 ⟨"hi", false⟩

/-! ## Helper lemmas -/

lemma ite_points_mono {p q : Bool} (n : Nat) (h : p = true → q = true) :
    (if p then n else 0) ≤ (if q then n else 0) := by
  cases p <;> cases q <;> simp_all

lemma bor_implies {x1 y1 x2 y2 : Bool} (hx : x1 = true → x2 = true)
    (hy : y1 = true → y2 = true) : (x1 || y1) = true → (x2 || y2) = true := by
  cases x1 <;> cases y1 <;> simp_all

lemma symptom_points_bool_mono : ∀ (s1 d1 b1 s2 d2 b2 : Bool),
    (s1 = true → s2 = true) → (d1 = true → d2 = true) → (b1 = true → b2 = true) →
    (if s1 then if d1 then 20 else if b1 then 15 else 10 else 0 : Nat)
      ≤ (if s2 then if d2 then 20 else if b2 then 15 else 10 else 0) := by decide

lemma base_score_mono {h1 h2 : List Msg} (h : h1.length ≤ h2.length) :
    base_score_of h1 ≤ base_score_of h2 := by
  unfold base_score_of
  split_ifs <;> omega

/-- The keywords whose presence the scoring engine tests. -/
def scoring_keywords : List String :=
  ["symptom", "detailed", "thorough", "basic", "main", "medical history",
   "medication", "risk factor", "lifestyle", "impact", "daily life", "family",
   "hearing", "auditory"]

lemma mem_take_three_append {g : String} {l : List String} (h : l.length < 2) :
    g ∈ (l ++ [g]).take 3 := by
  rcases l with _ | ⟨a, _ | ⟨b, t⟩⟩
  · simp
  · simp [List.take]
  · simp at h
    omega

/-- At every exit of `generate_structured_response`, the turn-level
completion flag equals the score-threshold gate `score >= 75`. -/
lemma turn_complete_iff (enabled : Bool) (pa pr : Option String) (m : String)
    (h : List Msg) (st : String) (uc : UserContext) :
    (generate_structured_response enabled pa pr m h st uc).assessment_complete
      = decide ((generate_structured_response enabled pa pr m h st uc).completion_score ≥ 75) := by
  cases enabled <;> cases pr <;> cases pa <;> rfl

/-! ## C4: monotonicity of the completion score -/

/-- C4: the completion score is monotone — if text `b` matches every scoring
keyword that text `a` matches (in particular, whenever the content of `b`
extends that of `a`) and the second conversation history is at least as long, the score
cannot decrease.  Touching more scoring categories and lengthening the
transcript never lower the score. -/
theorem completion_score_monotone (a b : String) (ha hb : List Msg)
    (uca ucb : UserContext)
    (hk : ∀ k ∈ scoring_keywords, strContains a k = true → strContains b k = true)
    (hl : ha.length ≤ hb.length) :
    calculate_completion_score a ha uca ≤ calculate_completion_score b hb ucb := by
  have h1 := hk "symptom" (by decide)
  have h2 := hk "detailed" (by decide)
  have h3 := hk "thorough" (by decide)
  have h4 := hk "basic" (by decide)
  have h5 := hk "main" (by decide)
  have h6 := hk "medical history" (by decide)
  have h7 := hk "medication" (by decide)
  have h8 := hk "risk factor" (by decide)
  have h9 := hk "lifestyle" (by decide)
  have h10 := hk "impact" (by decide)
  have h11 := hk "daily life" (by decide)
  have h12 := hk "family" (by decide)
  have h13 := hk "hearing" (by decide)
  have h14 := hk "auditory" (by decide)
  have hbase := base_score_mono hl
  have hsym : symptom_points a ≤ symptom_points b := by
    unfold symptom_points
    exact symptom_points_bool_mono _ _ _ _ _ _ h1 (bor_implies h2 h3) (bor_implies h4 h5)
  have hmed := ite_points_mono (p := strContains a "medical history" || strContains a "medication")
    (q := strContains b "medical history" || strContains b "medication") 15 (bor_implies h6 h7)
  have hrisk := ite_points_mono (p := strContains a "risk factor" || strContains a "lifestyle")
    (q := strContains b "risk factor" || strContains b "lifestyle") 15 (bor_implies h8 h9)
  have himp := ite_points_mono (p := strContains a "impact" || strContains a "daily life")
    (q := strContains b "impact" || strContains b "daily life") 10 (bor_implies h10 h11)
  have hfam := ite_points_mono (p := strContains a "family") (q := strContains b "family") 5 h12
  have hhear := ite_points_mono (p := strContains a "hearing" || strContains a "auditory")
    (q := strContains b "hearing" || strContains b "auditory") 5 (bor_implies h13 h14)
  have hcontent : content_score_of a ≤ content_score_of b := by
    unfold content_score_of
    omega
  unfold calculate_completion_score
  omega

theorem completion_score_monotone_witness :
    calculate_completion_score "" [] [] ≤ calculate_completion_score "symptom" [⟨"hi", false⟩] [] :=
  completion_score_monotone "" "symptom" [] [⟨"hi", false⟩] [] [] (by decide) (by decide)

/-! ## C5: fallback on provider failure -/

/-- C5: when the service is disabled (provider unavailable) or the reply
provider call fails, the turn orchestrator still returns a well-formed turn
result with `assessment_complete = false`, `completion_score = 0`, a
non-empty fallback message and at least one suggested follow-up question. -/
theorem provider_failure_fallback (enabled : Bool) (pa pr : Option String)
    (m : String) (h : List Msg) (st : String) (uc : UserContext)
    (hfail : enabled = false ∨ pr = none) :
    (generate_structured_response enabled pa pr m h st uc).assessment_complete = false
    ∧ (generate_structured_response enabled pa pr m h st uc).completion_score = 0
    ∧ (generate_structured_response enabled pa pr m h st uc).message ≠ ""
    ∧ 1 ≤ (generate_structured_response enabled pa pr m h st uc).next_questions.length := by
  have hu : ("AI service unavailable" : String) ≠ "" := by decide
  have ht : ("I\x27m having trouble processing your request. Please try again." : String) ≠ "" := by decide
  have hlen : (1 : Nat) ≤ 2 := by decide
  rcases hfail with hfail | hfail
  · subst hfail
    exact ⟨rfl, rfl, hu, hlen⟩
  · subst hfail
    cases enabled
    · exact ⟨rfl, rfl, hu, hlen⟩
    · exact ⟨rfl, rfl, ht, hlen⟩

theorem provider_failure_fallback_witness :
    (generate_structured_response false none none "hello" [] "initial" []).assessment_complete = false
    ∧ (generate_structured_response false none none "hello" [] "initial" []).completion_score = 0
    ∧ (generate_structured_response false none none "hello" [] "initial" []).message ≠ ""
    ∧ 1 ≤ (generate_structured_response false none none "hello" [] "initial" []).next_questions.length :=
  provider_failure_fallback false none none "hello" [] "initial" [] (Or.inl rfl)

/-! ## C8: bounds on the next-question advisor -/

/-- C8: for every completion score and analysis text the advisor returns
between one and three questions, and whenever fewer than two tier-specific
questions apply the generic closing question is among the output, so the
caller never receives an empty list. -/
theorem suggest_next_questions_bounds (completion_score : Nat) (analysis_text : String) :
    (1 ≤ (suggest_next_questions completion_score analysis_text).length
      ∧ (suggest_next_questions completion_score analysis_text).length ≤ 3)
    ∧ ((tier_questions completion_score analysis_text).length < 2 →
        generic_followup_question ∈ suggest_next_questions completion_score analysis_text) := by
  unfold suggest_next_questions
  by_cases h : (tier_questions completion_score analysis_text).length < 2
  · rw [if_pos h]
    refine ⟨⟨?_, ?_⟩, fun _ => mem_take_three_append h⟩
    · rw [List.length_take]
      simp only [List.length_append, List.length_singleton]
      omega
    · rw [List.length_take]
      omega
  · rw [if_neg h]
    refine ⟨⟨?_, ?_⟩, fun hc => absurd hc h⟩
    · rw [List.length_take]
      omega
    · rw [List.length_take]
      omega

theorem suggest_next_questions_bounds_witness :
    ((tier_questions 80 "treatment hearing follow-up").length < 2)
    ∧ generic_followup_question ∈ suggest_next_questions 80 "treatment hearing follow-up" :=
  ⟨by decide, (suggest_next_questions_bounds 80 "treatment hearing follow-up").2 (by decide)⟩

/-! ## C1: the completion gate -/

/-- The outcome `send_message` computes on `h9ex` with a failed analysis call
and the reply "Thanks for sharing.". -/
def sendExOutcome : SendOutcome :=
  { response :=
      { message := "hello"
        response := "Thanks for sharing."
        assessment_complete := true
        completion_score := 0
        message_count := 11 }
    saved_messages := [⟨"hello", false⟩, ⟨"Thanks for sharing.", true⟩]
    report_is_complete := false
    session_score := 0
    session_complete := true }

/-- C1 counterexample: a turn surfaced by `send_message` from a 9-message
session carries `assessment_complete = true` with completion score 0, which
is below the 75 threshold — the surfaced flag is not gated by the score. -/
theorem surfaced_complete_ignores_score_cex :
    (send_message h9ex true none (some "Thanks for sharing.") "hello" "initial" []).map
        (fun o => (o.response.assessment_complete, o.response.completion_score))
      = Except.ok (true, 0)
    ∧ ¬ ((0 : Nat) ≥ 75) := ⟨by rfl, by decide⟩

/-- C1 (amended): the score-threshold gate governs the engine-internal turn
result — at every exit of `generate_structured_response` the flag equals
`score >= 75` (74 gives `false`, 85 gives `true`), and that internal flag is
what `send_message` stores on the patient report; but the flag surfaced in
the HTTP `ChatResponse` is `message_count >= 10` computed after the two new
messages are saved, independent of the score. -/
theorem completion_gate_amended :
    (∀ (enabled : Bool) (pa pr : Option String) (m : String) (h : List Msg)
        (st : String) (uc : UserContext),
      (generate_structured_response enabled pa pr m h st uc).assessment_complete
        = decide ((generate_structured_response enabled pa pr m h st uc).completion_score ≥ 75))
    ∧ determine_assessment_completion_looser 74 "" [] = false
    ∧ determine_assessment_completion_looser 85 "" [] = true
    ∧ (∀ (h : List Msg) (enabled : Bool) (pa pr : Option String) (m st : String)
        (uc : UserContext) (o : SendOutcome),
      send_message h enabled pa pr m st uc = .ok o →
        o.response.assessment_complete = decide (h.length + 2 ≥ 10)
        ∧ o.report_is_complete = decide (o.session_score ≥ 75)) := by
  refine ⟨fun enabled pa pr m h st uc => turn_complete_iff enabled pa pr m h st uc,
    by decide, by decide, ?_⟩
  intro h enabled pa pr m st uc o hok
  unfold send_message at hok
  split at hok
  · exact absurd hok (by simp)
  · injection hok with hok
    subst hok
    refine ⟨?_, ?_⟩
    · show decide ((h ++ [_, _]).length ≥ 10) = decide (h.length + 2 ≥ 10)
      simp [List.length_append]
    · exact turn_complete_iff enabled pa pr m h st uc

theorem completion_gate_amended_witness :
    sendExOutcome.response.assessment_complete = decide (h9ex.length + 2 ≥ 10)
    ∧ sendExOutcome.report_is_complete = decide (sendExOutcome.session_score ≥ 75) :=
  completion_gate_amended.2.2.2 h9ex true none (some "Thanks for sharing.")
    "hello" "initial" [] sendExOutcome (by rfl)

/-! ## C2: the message ceiling -/

/-- C2 counterexample: a session holding 10 stored messages of which only 5
are inbound (patient) turns is already rejected by the ceiling check, so the
ceiling is not a ceiling of 10 inbound turns. -/
theorem turn_ceiling_counts_all_messages_cex :
    (h10ex.filter (fun m => !m.is_doctor)).length = 5
    ∧ send_message h10ex true none (some "x") "m" "initial" [] = .error chat_limit_detail :=
  ⟨by decide, by rfl⟩

/-- C2 (amended): the engine-enforced ceiling counts all stored messages
(patient and attendant together, including the greeting): a send against a
session with 10 or more stored messages is rejected with the user-visible
limit detail before any state change, and every successfully processed turn
surfaces `assessment_complete = (stored count after saving >= 10)` regardless
of the completion score. -/
theorem turn_ceiling_amended (h : List Msg) (enabled : Bool)
    (pa pr : Option String) (m st : String) (uc : UserContext) :
    (h.length ≥ 10 → send_message h enabled pa pr m st uc = .error chat_limit_detail)
    ∧ (h.length < 10 →
        (send_message h enabled pa pr m st uc).map
            (fun o => (o.response.assessment_complete, o.response.message_count))
          = .ok (decide (h.length + 2 ≥ 10), h.length + 2)) := by
  constructor
  · intro h10
    unfold send_message
    rw [if_pos h10]
  · intro hlt
    unfold send_message
    rw [if_neg (by omega)]
    simp [Except.map, List.length_append]

theorem turn_ceiling_amended_witness :
    send_message h10ex true none (some "x") "m" "initial" [] = .error chat_limit_detail
    ∧ (send_message h9ex true none (some "x") "m" "initial" []).map
        (fun o => (o.response.assessment_complete, o.response.message_count))
      = .ok (true, 11) :=
  ⟨(turn_ceiling_amended h10ex true none (some "x") "m" "initial" []).1 (by decide),
   ((turn_ceiling_amended h9ex true none (some "x") "m" "initial" []).2 (by decide)).trans
     (by rfl)⟩

/-! ## C3: score boundedness -/

/-- C3 counterexample: the manual-completion override on a reachable
11-message session records a completion score of 110, outside [0,100]. -/
theorem manual_completion_score_overflow_cex :
    (complete_assessment_manually true h11ex).map (fun r => r.completion_score)
      = .ok 110
    ∧ ¬ ((110 : Nat) ≤ 100) := ⟨by rfl, by decide⟩

/-- C3 (amended): the scoring function itself is bounded — it always returns
a value at most 100 (and, being `Nat`-valued, at least 0) and returns 0 on an
empty transcript with empty collected data; the manual-completion override
records `max(message_count * 10, 80)`, which lies within [0,100] only while
the session holds at most 10 messages (at the reachable terminal count of 11
it is 110). -/
theorem score_bounds_amended :
    (∀ (t : String) (h : List Msg) (uc : UserContext),
      calculate_completion_score t h uc ≤ 100)
    ∧ calculate_completion_score "" [] [] = 0
    ∧ (∀ (h : List Msg), 4 ≤ h.length →
        (complete_assessment_manually true h).map (fun r => r.completion_score)
          = .ok (max (h.length * 10) 80))
    ∧ (∀ n : Nat, n ≤ 10 → max (n * 10) 80 ≤ 100) := by
  refine ⟨?_, by decide, ?_, ?_⟩
  · intro t h uc
    unfold calculate_completion_score
    omega
  · intro h hlen
    unfold complete_assessment_manually
    rw [if_neg (by simp), if_neg (by omega)]
    rfl
  · intro n hn
    omega

theorem score_bounds_amended_witness :
    (complete_assessment_manually true h4ex).map (fun r => r.completion_score)
      = .ok (max (h4ex.length * 10) 80)
    ∧ max (10 * 10) 80 ≤ 100 :=
  ⟨score_bounds_amended.2.2.1 h4ex (by decide), score_bounds_amended.2.2.2 10 (by decide)⟩

/-! ## C6: report synthesis on provider failure -/

/-- C6 counterexample: with a valid 6-message session and a failing provider,
`generate_final_report` does not return an error — it writes a fallback
report marked `is_complete = true` whose `hearing_assessment_summary` key is
absent. -/
theorem report_fallback_marked_complete_cex :
    generate_final_report true h6ex true none =
      Except.ok
        { executive_summary := some (default_exec_summary 6)
          symptom_analysis := some (default_symptom_analysis 6)
          risk_assessment := some default_risk_assessment
          hearing_assessment_summary := none
          recommendations := some default_recommendations
          follow_up_actions := some default_follow_up
          assessment_stage := "complete"
          is_complete := true } := by rfl

/-- C6 (amended): the synthesizer `generate_patient_report` does return an
explicit error value when the provider fails, but the report endpoint
`generate_final_report` converts that error into a generic fallback report
marked `is_complete = true` (with no `hearing_assessment_summary` entry)
instead of propagating an error. -/
theorem report_error_path_amended (hist : List Msg) (h6 : 6 ≤ hist.length) :
    generate_patient_report true none = .error "Failed to generate report"
    ∧ (generate_final_report true hist true none).map
        (fun r => (r.is_complete, r.hearing_assessment_summary)) = .ok (true, none) := by
  refine ⟨rfl, ?_⟩
  unfold generate_final_report
  rw [if_neg (by simp), if_neg (by omega)]
  rfl

theorem report_error_path_amended_witness :
    generate_patient_report true none = .error "Failed to generate report"
    ∧ (generate_final_report true h6ex true none).map
        (fun r => (r.is_complete, r.hearing_assessment_summary)) = .ok (true, none) :=
  report_error_path_amended h6ex (by decide)

/-! ## C7: section parser with no heading markers -/

/-- All heading-marker tokens recognised by `_parse_report_into_sections`. -/
def report_marker_tokens : List String :=
  ["executive summary", "1.", "1)", "symptom analysis", "2.", "2)",
   "risk assessment", "3.", "3)", "hearing assessment", "4.", "4)",
   "recommendations", "5.", "5)", "follow-up actions", "follow up actions",
   "6.", "6)"]

/-- No line of the text contains any heading marker, compared the way the
parser compares (the line stripped, then lower-cased). -/
def noMarkers (text : String) : Bool :=
  (splitLines text).all (fun l =>
    report_marker_tokens.all (fun t => !(strContains (pyLower (pyStrip l)) t)))

lemma matchingSectionKey_eq_none {l : String}
    (h : ∀ t ∈ report_marker_tokens, strContains (pyLower l) t = false) :
    matchingSectionKey l = none := by
  have h1 := h "executive summary" (by decide)
  have h2 := h "1." (by decide)
  have h3 := h "1)" (by decide)
  have h4 := h "symptom analysis" (by decide)
  have h5 := h "2." (by decide)
  have h6 := h "2)" (by decide)
  have h7 := h "risk assessment" (by decide)
  have h8 := h "3." (by decide)
  have h9 := h "3)" (by decide)
  have h10 := h "hearing assessment" (by decide)
  have h11 := h "4." (by decide)
  have h12 := h "4)" (by decide)
  have h13 := h "recommendations" (by decide)
  have h14 := h "5." (by decide)
  have h15 := h "5)" (by decide)
  have h16 := h "follow-up actions" (by decide)
  have h17 := h "follow up actions" (by decide)
  have h18 := h "6." (by decide)
  have h19 := h "6)" (by decide)
  unfold matchingSectionKey
  have hfind : sectionMarkerGroups.find? (fun g => lineMatchesGroup l g.1) = none := by
    rw [List.find?_eq_none]
    intro g hg
    fin_cases hg <;>
      simp [lineMatchesGroup, h1, h2, h3, h4, h5, h6, h7, h8, h9, h10, h11, h12,
        h13, h14, h15, h16, h17, h18, h19]
  rw [hfind]
  rfl

lemma parse_fold_no_markers (lines : List String) :
    ∀ (sections : ReportSections),
      (∀ l ∈ lines, matchingSectionKey (pyStrip l) = none) →
      lines.foldl parseReportStep (sections, none, []) = (sections, none, []) := by
  induction lines with
  | nil => intro sections _; rfl
  | cons a t ih =>
    intro sections h
    have ha := h a (List.mem_cons_self a t)
    have hstep : parseReportStep (sections, none, []) a = (sections, none, []) := by
      simp only [parseReportStep]
      rw [ha]
      simp
    rw [List.foldl_cons, hstep]
    exact ih sections (fun l hl => h l (List.mem_cons_of_mem a hl))

/-- C7: when the provider text contains none of the heading markers, the
parser assigns the entire text to the executive summary and leaves the other
five sections as empty strings; by construction the output record always
carries exactly the six named section fields. -/
theorem parse_no_markers_executive_summary (text : String)
    (h : noMarkers text = true) :
    parse_report_into_sections text = ⟨text, "", "", "", "", ""⟩ := by
  have hl : ∀ l ∈ splitLines text, matchingSectionKey (pyStrip l) = none := by
    intro l hmem
    apply matchingSectionKey_eq_none
    intro t ht
    have h1 := List.all_eq_true.mp h l hmem
    have h2 := List.all_eq_true.mp h1 t ht
    simpa using h2
  simp only [parse_report_into_sections]
  rw [parse_fold_no_markers (splitLines text) ⟨"", "", "", "", "", ""⟩ hl]
  rfl

theorem parse_no_markers_witness :
    noMarkers "hello\nworld" = true
    ∧ parse_report_into_sections "hello\nworld" = ⟨"hello\nworld", "", "", "", "", ""⟩ :=
  ⟨by decide, parse_no_markers_executive_summary "hello\nworld" (by decide)⟩

/-! ## Helper lemmas for the extractor (C9, C10) -/

lemma foldl_if_getLastD (P : String → Bool) (l : List String) (d : String) :
    l.foldl (fun acc p => if P p then p else acc) d = (l.filter P).getLastD d := by
  induction l generalizing d with
  | nil => rfl
  | cons a t ih =>
    rw [List.foldl_cons, List.filter_cons]
    by_cases h : P a = true
    · rw [if_pos h, if_pos h, ih, List.getLastD_cons]
    · rw [if_neg h, if_neg h, ih]

lemma foldl_filter_if {α β : Type} (p : α → Bool) (f : β → α → β)
    (l : List α) (b : β) :
    l.foldl (fun x a => if p a then f x a else x) b = (l.filter p).foldl f b := by
  induction l generalizing b with
  | nil => rfl
  | cons a t ih =>
    rw [List.foldl_cons, List.filter_cons]
    by_cases h : p a = true
    · rw [if_pos h, if_pos h, List.foldl_cons, ih]
    · rw [if_neg h, if_neg h, ih]

lemma dictInsert_not_mem {m : List (String × String)} {k : String}
    (h : ∀ p ∈ m, p.1 ≠ k) (v : String) : dictInsert m k v = m ++ [(k, v)] := by
  have hc : ¬ (m.any (fun p => p.1 == k) = true) := by
    rw [List.any_eq_true]
    rintro ⟨p, hp, hpe⟩
    exact h p hp (by simpa using hpe)
  unfold dictInsert
  rw [if_neg hc]

lemma dictInsert_replace (done : List (String × String)) (a : String)
    (v1 v2 : String) (t : List String)
    (hdone : ∀ p ∈ done, p.1 ≠ a) (ht : a ∉ t) :
    dictInsert (done ++ (a, v1) :: t.map (fun s => (s, v1))) a v2
      = done ++ (a, v2) :: t.map (fun s => (s, v1)) := by
  unfold dictInsert
  rw [if_pos (by rw [List.any_eq_true]; exact ⟨(a, v1), by simp, by simp⟩)]
  rw [List.map_append, List.map_cons]
  congr 1
  · have hmap : done.map (fun p => if p.1 == a then (a, v2) else p)
        = done.map (fun p => p) := by
      apply List.map_congr_left
      intro p hp
      rw [if_neg (by simpa using hdone p hp)]
    rw [hmap, List.map_id']
  · congr 1
    · simp
    · rw [List.map_map]
      apply List.map_congr_left
      intro s hsm
      have hne : s ≠ a := fun he => ht (he ▸ hsm)
      simp [hne]

lemma severity_pass_append (cond : String → Bool) (v : String) :
    ∀ (ks : List String) (m : List (String × String)),
      ks.Nodup → (∀ s ∈ ks, cond s = true) →
      (∀ s ∈ ks, ∀ p ∈ m, p.1 ≠ s) →
      ks.foldl (fun m s => if cond s then dictInsert m s v else m) m
        = m ++ ks.map (fun s => (s, v)) := by
  intro ks
  induction ks with
  | nil => intro m _ _ _; simp
  | cons a t ih =>
    intro m hnd hc hdisj
    rw [List.foldl_cons, if_pos (hc a (List.mem_cons_self a t)),
      dictInsert_not_mem (hdisj a (List.mem_cons_self a t)) v]
    have hd : ∀ s ∈ t, ∀ p ∈ m ++ [(a, v)], p.1 ≠ s := by
      intro s hs p hp
      rcases List.mem_append.mp hp with hp | hp
      · exact hdisj s (List.mem_cons_of_mem a hs) p hp
      · simp at hp
        subst hp
        show a ≠ s
        intro he
        exact (List.nodup_cons.mp hnd).1 (he ▸ hs)
    rw [ih (m ++ [(a, v)]) (List.nodup_cons.mp hnd).2
      (fun s hs => hc s (List.mem_cons_of_mem a hs)) hd]
    simp

lemma severity_pass_overwrite (cond : String → Bool) (v1 v2 : String) :
    ∀ (ks : List String) (done : List (String × String)),
      (∀ s ∈ ks, cond s = true) → ks.Nodup →
      (∀ s ∈ ks, ∀ p ∈ done, p.1 ≠ s) →
      ks.foldl (fun m s => if cond s then dictInsert m s v2 else m)
          (done ++ ks.map (fun s => (s, v1)))
        = done ++ ks.map (fun s => (s, v2)) := by
  intro ks
  induction ks with
  | nil => intro done _ _ _; simp
  | cons a t ih =>
    intro done hc hnd hdisj
    rw [List.map_cons, List.foldl_cons, if_pos (hc a (List.mem_cons_self a t)),
      dictInsert_replace done a v1 v2 t
        (fun p hp => hdisj a (List.mem_cons_self a t) p hp)
        (fun hmem => (List.nodup_cons.mp hnd).1 hmem)]
    have heq : done ++ (a, v2) :: t.map (fun s => (s, v1))
        = (done ++ [(a, v2)]) ++ t.map (fun s => (s, v1)) := by simp
    have hd : ∀ s ∈ t, ∀ p ∈ done ++ [(a, v2)], p.1 ≠ s := by
      intro s hs p hp
      rcases List.mem_append.mp hp with hp | hp
      · exact hdisj s (List.mem_cons_of_mem a hs) p hp
      · simp at hp
        subst hp
        show a ≠ s
        intro he
        exact (List.nodup_cons.mp hnd).1 (he ▸ hs)
    rw [heq, ih (done ++ [(a, v2)]) (fun s hs => hc s (List.mem_cons_of_mem a hs))
      (List.nodup_cons.mp hnd).2 hd]
    simp

lemma severity_multi_pass (cond : String → Bool) (ks : List String)
    (hnd : ks.Nodup) (hc : ∀ s ∈ ks, cond s = true) :
    ∀ (inds : List String) (v : String),
      inds.foldl
          (fun m i => ks.foldl (fun m s => if cond s then dictInsert m s i else m) m)
          (ks.map (fun s => (s, v)))
        = ks.map (fun s => (s, inds.getLastD v)) := by
  intro inds
  induction inds with
  | nil => intro v; rfl
  | cons i t ih =>
    intro v
    rw [List.foldl_cons]
    have h1 : ks.foldl (fun m s => if cond s then dictInsert m s i else m)
        (ks.map (fun s => (s, v))) = ks.map (fun s => (s, i)) := by
      have := severity_pass_overwrite cond v i ks [] hc hnd
        (by intro s _ p hp; simp at hp)
      simpa using this
    rw [h1, ih i, List.getLastD_cons]

lemma symptom_keywords_nodup : symptom_keywords.Nodup := by decide

lemma extract_symptoms_eq (text : String) :
    (extract_structured_data_from_ai text).symptoms
      = symptom_keywords.filter (fun k => strContains (pyLower text) k) := rfl

lemma severity_levels_eq_nil (text : String)
    (h : severity_indicators.filter (fun i => strContains (pyLower text) i) = []) :
    (extract_structured_data_from_ai text).severity_levels = [] := by
  have hstart : (extract_structured_data_from_ai text).severity_levels
      = severity_indicators.foldl
          (fun m indicator =>
            if strContains (pyLower text) indicator then
              (symptom_keywords.filter (fun k => strContains (pyLower text) k)).foldl
                (fun m symptom =>
                  if strContains (pyLower text) symptom then dictInsert m symptom indicator
                  else m) m
            else m) [] := rfl
  rw [hstart, foldl_filter_if (fun i => strContains (pyLower text) i) _ severity_indicators [], h]
  rfl

lemma severity_levels_eq_map (text : String) (i : String) (rest : List String)
    (h : severity_indicators.filter (fun i => strContains (pyLower text) i) = i :: rest) :
    (extract_structured_data_from_ai text).severity_levels
      = (symptom_keywords.filter (fun s => strContains (pyLower text) s)).map
          (fun s => (s, rest.getLastD i)) := by
  have hstart : (extract_structured_data_from_ai text).severity_levels
      = severity_indicators.foldl
          (fun m indicator =>
            if strContains (pyLower text) indicator then
              (symptom_keywords.filter (fun k => strContains (pyLower text) k)).foldl
                (fun m symptom =>
                  if strContains (pyLower text) symptom then dictInsert m symptom indicator
                  else m) m
            else m) [] := rfl
  have hnd : (symptom_keywords.filter (fun k => strContains (pyLower text) k)).Nodup :=
    symptom_keywords_nodup.filter _
  have hc : ∀ s ∈ symptom_keywords.filter (fun k => strContains (pyLower text) k),
      strContains (pyLower text) s = true :=
    fun s hs => (List.mem_filter.mp hs).2
  rw [hstart, foldl_filter_if (fun i => strContains (pyLower text) i) _ severity_indicators [],
    h, List.foldl_cons]
  have h1 : (symptom_keywords.filter (fun k => strContains (pyLower text) k)).foldl
      (fun m symptom =>
        if strContains (pyLower text) symptom then dictInsert m symptom i else m) []
      = (symptom_keywords.filter (fun k => strContains (pyLower text) k)).map
          (fun s => (s, i)) := by
    have := severity_pass_append (fun s => strContains (pyLower text) s) i
      (symptom_keywords.filter (fun k => strContains (pyLower text) k)) [] hnd hc
      (by intro s _ p hp; simp at hp)
    simpa using this
  rw [h1]
  exact severity_multi_pass _ _ hnd hc rest i

lemma lookupAssoc_cons (a : String × String) (m : List (String × String)) (k : String) :
    lookupAssoc (a :: m) k = if a.1 == k then some a.2 else lookupAssoc m k := by
  cases h : (a.1 == k) <;> simp [lookupAssoc, List.find?_cons, h]

lemma lookupAssoc_map_const {ks : List String} {s v : String} (h : s ∈ ks) :
    lookupAssoc (ks.map (fun x => (x, v))) s = some v := by
  induction ks with
  | nil => cases h
  | cons a t ih =>
    rcases List.mem_cons.mp h with rfl | hmem
    · rw [List.map_cons, lookupAssoc_cons]
      simp
    · rw [List.map_cons, lookupAssoc_cons]
      by_cases has : a = s
      · subst has
        simp
      · rw [if_neg (by simpa using has)]
        exact ih hmem

lemma getLast?_cons_eq (a : String) (l : List String) :
    (a :: l).getLast? = some (l.getLastD a) := by
  induction l generalizing a with
  | nil => rfl
  | cons b t ih => rw [List.getLast?_cons_cons, ih, List.getLastD_cons]

/-! ## C9: which matching token the extractor keeps -/

/-- The start indices at which `pat` occurs in `hay`. -/
def matchPositions (hay pat : List Char) : List Nat :=
  (List.range (hay.length + 1)).filter (fun i => pat.isPrefixOf (hay.drop i))

/-- Refinement reference following the words of the specification: among the
vocabulary tokens occurring in the text, the matching token found last in the
text — the token whose final occurrence starts at the greatest index. -/
def lastMatchingTokenInText (vocab : List String) (text : String) : Option String :=
  let scored := vocab.filterMap (fun v =>
    ((matchPositions (pyLower text).toList v.toList).getLast?).map (fun idx => (v, idx)))
  (scored.foldl (fun acc p =>
    match acc with
    | none => some p
    | some q => if p.2 ≥ q.2 then some p else some q) none).map (fun p => p.1)

/-- C9 counterexample: on "years before days" the token occurring last in the
text is "days", but the extractor records "years" for the duration field — it
keeps the token latest in the fixed vocabulary order, not the one found last
in the text. -/
theorem extractor_vocab_order_cex :
    (extract_structured_data_from_ai "years before days").duration = "years"
    ∧ lastMatchingTokenInText duration_patterns "years before days" = some "days"
    ∧ ("years" : String) ≠ "days" := ⟨by decide, by decide, by decide⟩

/-- C9 (amended): the duration, location and frequency fields each hold the
vocabulary entry occurring latest in the fixed vocabulary list among those
found anywhere in the text (empty when none matches), and the severity level
of every extracted symptom is the last vocabulary-order severity indicator
found in the text — not the token found last in the text. -/
theorem extractor_last_vocab_match_amended (text : String) :
    (extract_structured_data_from_ai text).duration
        = (duration_patterns.filter (fun p => strContains (pyLower text) p)).getLastD ""
    ∧ (extract_structured_data_from_ai text).location
        = (location_patterns.filter (fun p => strContains (pyLower text) p)).getLastD ""
    ∧ (extract_structured_data_from_ai text).frequency
        = (frequency_patterns.filter (fun p => strContains (pyLower text) p)).getLastD ""
    ∧ (∀ s ∈ (extract_structured_data_from_ai text).symptoms,
        lookupAssoc (extract_structured_data_from_ai text).severity_levels s
          = (severity_indicators.filter (fun i => strContains (pyLower text) i)).getLast?) := by
  refine ⟨foldl_if_getLastD _ duration_patterns "",
    foldl_if_getLastD _ location_patterns "",
    foldl_if_getLastD _ frequency_patterns "", ?_⟩
  intro s hs
  cases hfilter : severity_indicators.filter (fun i => strContains (pyLower text) i) with
  | nil =>
    rw [severity_levels_eq_nil text hfilter]
    rfl
  | cons i rest =>
    rw [severity_levels_eq_map text i rest hfilter, getLast?_cons_eq]
    exact lookupAssoc_map_const (by rw [extract_symptoms_eq] at hs; exact hs)

theorem extractor_last_vocab_match_amended_witness :
    ("pain" ∈ (extract_structured_data_from_ai "mild pain, later severe").symptoms)
    ∧ lookupAssoc (extract_structured_data_from_ai "mild pain, later severe").severity_levels "pain"
      = (severity_indicators.filter
          (fun i => strContains (pyLower "mild pain, later severe") i)).getLast? :=
  ⟨by decide,
   (extractor_last_vocab_match_amended "mild pain, later severe").2.2.2 "pain" (by decide)⟩

/-! ## C10: severity map keys and uniformity -/

/-- C10: every key of the severity map of the extractor is one of its extracted
symptoms, and whenever any severity indicator occurs in the text every
extracted symptom is mapped to one and the same indicator. -/
theorem severity_keys_subset_and_uniform (text : String) :
    (∀ p ∈ (extract_structured_data_from_ai text).severity_levels,
        p.1 ∈ (extract_structured_data_from_ai text).symptoms)
    ∧ ((severity_indicators.any (fun i => strContains (pyLower text) i)) = true →
        ∃ ind, ∀ s ∈ (extract_structured_data_from_ai text).symptoms,
          (s, ind) ∈ (extract_structured_data_from_ai text).severity_levels) := by
  constructor
  · intro p hp
    cases hfilter : severity_indicators.filter (fun i => strContains (pyLower text) i) with
    | nil =>
      rw [severity_levels_eq_nil text hfilter] at hp
      cases hp
    | cons i rest =>
      rw [severity_levels_eq_map text i rest hfilter] at hp
      obtain ⟨s, hsm, heq⟩ := List.mem_map.mp hp
      rw [extract_symptoms_eq, ← heq]
      exact hsm
  · intro hany
    cases hfilter : severity_indicators.filter (fun i => strContains (pyLower text) i) with
    | nil =>
      rw [List.any_eq_true] at hany
      obtain ⟨i, hi, hpi⟩ := hany
      have hmem : i ∈ severity_indicators.filter (fun i => strContains (pyLower text) i) :=
        List.mem_filter.mpr ⟨hi, hpi⟩
      rw [hfilter] at hmem
      cases hmem
    | cons i rest =>
      refine ⟨rest.getLastD i, ?_⟩
      intro s hs
      rw [severity_levels_eq_map text i rest hfilter]
      exact List.mem_map.mpr ⟨s, by rwa [extract_symptoms_eq] at hs, rfl⟩

theorem severity_keys_subset_and_uniform_witness :
    ("pain" ∈ (extract_structured_data_from_ai "mild pain").symptoms)
    ∧ (∃ ind, ∀ s ∈ (extract_structured_data_from_ai "mild pain").symptoms,
        (s, ind) ∈ (extract_structured_data_from_ai "mild pain").severity_levels) :=
  ⟨(severity_keys_subset_and_uniform "mild pain").1 ("pain", "mild") (by decide),
   (severity_keys_subset_and_uniform "mild pain").2 (by decide)⟩
